import Mathlib

/-!
Verification of the pattern-generator program (`src/main.py`).

The program is shallowly embedded below:
* `pyRound` models Python's built-in `round` (round-half-to-even) applied to
  the exact rational value of an integer division `a / b`; all numbers the
  program divides are small integers, for which float division is exact at
  every half-integer boundary, so the rational model agrees with the code.
* `choice` models `random.choice(colours)` with an externally supplied
  random draw `r : ℕ`; it returns `none` exactly when the list is empty
  (Python raises `IndexError` there).
* `mapOrFail` models a Python list comprehension whose body may raise:
  elements are produced left to right and the first failure aborts.
* `genPattern` models `Main.__gen_pattern`, `patternDims` / `configPattern`
  model the grid-dimension computation in `Main.__config` (`none` for the
  `ZeroDivisionError` of `round(width / 0)`).
* `ConfigFile`, `load_config`, `check_valid_file`, `Main_config` model the
  configuration loading / validation / fallback path.
* `DrawOp`, `TurtleState`, `stepOp`, `runOps` and `drawOps` model the turtle
  renderer of `Main.__draw_pattern` as an emitted trace of cursor commands
  together with their small-step semantics on the cursor state.
-/

/-- Python's `round` (round half to even) of a rational number. -/
def pyRound (q : ℚ) : ℤ :=
  if q - ⌊q⌋ < 1/2 then ⌊q⌋
  else if 1/2 < q - ⌊q⌋ then ⌊q⌋ + 1
  else if ⌊q⌋ % 2 = 0 then ⌊q⌋ else ⌊q⌋ + 1

/-- `random.choice(l)` given one random draw `r`: an element of `l` when `l`
is non-empty, `none` (Python: `IndexError`) when `l` is empty. -/
def choice (l : List String) (r : ℕ) : Option String :=
  l.get? (r % l.length)

/-- A Python list comprehension whose body may raise: build the results left
to right, aborting at the first failure. -/
def mapOrFail {α β : Type} (f : α → Option β) : List α → Option (List β)
  | [] => some []
  | x :: xs =>
    match f x with
    | none => none
    | some b =>
      match mapOrFail f xs with
      | none => none
      | some bs => some (b :: bs)

/-- `Main.__gen_pattern(width, height, colours)`:
`[[choice(colours) for _ in range(width)] for _ in range(height)]`,
with the random source `rng` supplying the draw for each cell. -/
def genPattern (width height : ℕ) (colours : List String) (rng : ℕ → ℕ) :
    Option (List (List String)) :=
  mapOrFail
    (fun i => mapOrFail (fun j => choice colours (rng (i * width + j))) (List.range width))
    (List.range height)

/-- The two arguments `Main.__config` passes to `__gen_pattern`:
`round(width / side_length)` and `round(height / side_length)`; `none`
models the `ZeroDivisionError` when `side_length = 0`. -/
def patternDims (width height side : ℤ) : Option (ℤ × ℤ) :=
  if side = 0 then none
  else some (pyRound ((width : ℚ) / (side : ℚ)), pyRound ((height : ℚ) / (side : ℚ)))

/-- The pattern built by `Main.__config`: grid dimensions from `patternDims`
(Python's `range` of a negative integer is empty, hence `Int.toNat`), cells
from `__gen_pattern`. -/
def configPattern (width height side : ℤ) (colours : List String) (rng : ℕ → ℕ) :
    Option (List (List String)) :=
  match patternDims width height side with
  | none => none
  | some p => genPattern p.1.toNat p.2.toNat colours rng

lemma choice_empty (r : ℕ) : choice [] r = none := rfl

lemma choice_eq_some_of_ne_nil (l : List String) (hl : l ≠ []) (r : ℕ) :
    ∃ c, choice l r = some c ∧ c ∈ l := by
  have hlen : 0 < l.length := List.length_pos.mpr hl
  have hmod : r % l.length < l.length := Nat.mod_lt _ hlen
  refine ⟨l.get ⟨r % l.length, hmod⟩, ?_, List.get_mem _ _ _⟩
  simp [choice, List.get?_eq_get hmod]

lemma choice_mem (l : List String) (r : ℕ) (c : String) (h : choice l r = some c) :
    c ∈ l :=
  List.get?_mem h

lemma mapOrFail_length {α β : Type} (f : α → Option β) :
    ∀ (l : List α) (r : List β), mapOrFail f l = some r → r.length = l.length := by
  intro l
  induction l with
  | nil => intro r h; simp [mapOrFail] at h; simp [← h]
  | cons x xs ih =>
    intro r h
    simp only [mapOrFail] at h
    cases hx : f x with
    | none => rw [hx] at h; exact absurd h (by simp)
    | some b =>
      rw [hx] at h
      cases hxs : mapOrFail f xs with
      | none => rw [hxs] at h; exact absurd h (by simp)
      | some bs =>
        rw [hxs] at h
        cases h
        simpa using ih bs hxs

lemma mapOrFail_mem {α β : Type} (f : α → Option β) :
    ∀ (l : List α) (r : List β), mapOrFail f l = some r →
      ∀ b ∈ r, ∃ x ∈ l, f x = some b := by
  intro l
  induction l with
  | nil => intro r h; simp [mapOrFail] at h; subst h; simp
  | cons x xs ih =>
    intro r h
    simp only [mapOrFail] at h
    cases hx : f x with
    | none => rw [hx] at h; exact absurd h (by simp)
    | some b =>
      rw [hx] at h
      cases hxs : mapOrFail f xs with
      | none => rw [hxs] at h; exact absurd h (by simp)
      | some bs =>
        rw [hxs] at h
        cases h
        intro c hc
        rcases List.mem_cons.mp hc with rfl | hc
        · exact ⟨x, List.mem_cons_self _ _, hx⟩
        · rcases ih bs hxs c hc with ⟨y, hy, hfy⟩
          exact ⟨y, List.mem_cons_of_mem _ hy, hfy⟩

lemma mapOrFail_isSome {α β : Type} (f : α → Option β) :
    ∀ l : List α, (∀ x ∈ l, ∃ b, f x = some b) → ∃ r, mapOrFail f l = some r := by
  intro l
  induction l with
  | nil => intro _; exact ⟨[], rfl⟩
  | cons x xs ih =>
    intro h
    rcases h x (List.mem_cons_self _ _) with ⟨b, hb⟩
    rcases ih (fun y hy => h y (List.mem_cons_of_mem _ hy)) with ⟨bs, hbs⟩
    exact ⟨b :: bs, by simp [mapOrFail, hb, hbs]⟩

lemma mapOrFail_eq_none {α β : Type} (f : α → Option β) :
    ∀ l : List α, ∀ x ∈ l, f x = none → mapOrFail f l = none := by
  intro l
  induction l with
  | nil => intro x hx; exact absurd hx (List.not_mem_nil x)
  | cons y ys ih =>
    intro x hx hfx
    rcases List.mem_cons.mp hx with rfl | hx
    · simp [mapOrFail, hfx]
    · cases hy : f y with
      | none => simp [mapOrFail, hy]
      | some b => simp [mapOrFail, hy, ih x hx hfx]

lemma pyRound_nonneg (q : ℚ) (hq : 0 ≤ q) : 0 ≤ pyRound q := by
  have hf : (0 : ℤ) ≤ ⌊q⌋ := Int.floor_nonneg.mpr hq
  unfold pyRound
  split
  · exact hf
  · split
    · omega
    · split
      · exact hf
      · omega

/-- C1: for every `width, height, side_length > 0` (and a non-empty palette,
without which cell selection fails), `Main.__config`'s pattern generation
produces a grid with exactly `round(height / side_length)` rows and exactly
`round(width / side_length)` columns, `round` being Python's
round-half-to-even as modelled by `pyRound`. -/
theorem C1_grid_dimensions (width height side : ℤ) (colours : List String) (rng : ℕ → ℕ)
    (hw : 0 < width) (hh : 0 < height) (hs : 0 < side) (hc : colours ≠ []) :
    ∃ g, configPattern width height side colours rng = some g ∧
      (g.length : ℤ) = pyRound ((height : ℚ) / (side : ℚ)) ∧
      ∀ r ∈ g, (r.length : ℤ) = pyRound ((width : ℚ) / (side : ℚ)) := by
  have hs0 : side ≠ 0 := ne_of_gt hs
  have hw' : (0 : ℚ) ≤ (width : ℚ) := by exact_mod_cast hw.le
  have hh' : (0 : ℚ) ≤ (height : ℚ) := by exact_mod_cast hh.le
  have hs' : (0 : ℚ) ≤ (side : ℚ) := by exact_mod_cast hs.le
  have hcols0 : 0 ≤ pyRound ((width : ℚ) / (side : ℚ)) :=
    pyRound_nonneg _ (div_nonneg hw' hs')
  have hrows0 : 0 ≤ pyRound ((height : ℚ) / (side : ℚ)) :=
    pyRound_nonneg _ (div_nonneg hh' hs')
  simp only [configPattern, patternDims, if_neg hs0]
  obtain ⟨g, hg⟩ :
      ∃ g, genPattern (pyRound ((width : ℚ) / (side : ℚ))).toNat
        (pyRound ((height : ℚ) / (side : ℚ))).toNat colours rng = some g := by
    unfold genPattern
    apply mapOrFail_isSome
    intro i _
    apply mapOrFail_isSome
    intro j _
    rcases choice_eq_some_of_ne_nil colours hc (rng (i * _ + j)) with ⟨c, hcs, _⟩
    exact ⟨c, hcs⟩
  unfold genPattern at hg
  refine ⟨g, hg, ?_, ?_⟩
  · have hlen := mapOrFail_length _ _ _ hg
    rw [List.length_range] at hlen
    rw [hlen, Int.toNat_of_nonneg hrows0]
  · intro r hr
    rcases mapOrFail_mem _ _ _ hg r hr with ⟨i, _, hir⟩
    have hlen := mapOrFail_length _ _ _ hir
    rw [List.length_range] at hlen
    rw [hlen, Int.toNat_of_nonneg hcols0]

/-- C1 witness: the concrete instance `width = 200, height = 100,
side_length = 50` with a two-colour palette. -/
theorem C1_grid_dimensions_witness :
    (0 : ℤ) < 200 ∧
    ∃ g, configPattern 200 100 50 ["#ff0000", "#00ff00"] (fun _ => 0) = some g ∧
      (g.length : ℤ) = pyRound ((100 : ℚ) / (50 : ℚ)) ∧
      ∀ r ∈ g, (r.length : ℤ) = pyRound ((200 : ℚ) / (50 : ℚ)) :=
  ⟨by decide,
   C1_grid_dimensions 200 100 50 ["#ff0000", "#00ff00"] (fun _ => 0)
     (by decide) (by decide) (by decide) (by decide)⟩

/-- C2: every cell of a grid produced by `Main.__gen_pattern` holds a colour
that is a member of the supplied palette (`random.choice` only ever returns
elements of its argument). -/
theorem C2_palette_closure (w h : ℕ) (colours : List String) (rng : ℕ → ℕ)
    (g : List (List String)) (hg : genPattern w h colours rng = some g) :
    ∀ row ∈ g, ∀ c ∈ row, c ∈ colours := by
  unfold genPattern at hg
  intro row hrow c hcell
  rcases mapOrFail_mem _ _ _ hg row hrow with ⟨i, _, hir⟩
  rcases mapOrFail_mem _ _ _ hir c hcell with ⟨j, _, hjc⟩
  exact choice_mem _ _ _ hjc

/-- C2 witness: a concrete 1×1 generation from a one-colour palette. -/
theorem C2_palette_closure_witness :
    genPattern 1 1 ["#ff0000"] (fun _ => 0) = some [["#ff0000"]] ∧
    ∀ row ∈ [["#ff0000"]], ∀ c ∈ row, c ∈ ["#ff0000"] :=
  ⟨rfl, C2_palette_closure 1 1 ["#ff0000"] (fun _ => 0) [["#ff0000"]] rfl⟩

/-- C9: with both grid dimensions positive, `Main.__gen_pattern` applied to
an empty palette fails (`random.choice` of an empty sequence raises
`IndexError`, modelled by `none`), and generation always succeeds when the
palette is non-empty: it is total exactly under that precondition. -/
theorem C9_empty_palette (w h : ℕ) (colours : List String) (rng : ℕ → ℕ)
    (hw : 0 < w) (hh : 0 < h) :
    (colours = [] → genPattern w h colours rng = none) ∧
    (colours ≠ [] → ∃ g, genPattern w h colours rng = some g) := by
  constructor
  · rintro rfl
    unfold genPattern
    apply mapOrFail_eq_none _ _ 0 (List.mem_range.mpr hh)
    apply mapOrFail_eq_none _ _ 0 (List.mem_range.mpr hw)
    rfl
  · intro hc
    unfold genPattern
    apply mapOrFail_isSome
    intro i _
    apply mapOrFail_isSome
    intro j _
    rcases choice_eq_some_of_ne_nil colours hc (rng (i * w + j)) with ⟨c, hcs, _⟩
    exact ⟨c, hcs⟩

/-- C9 witness: concrete 1×1 grids with the empty and a singleton palette. -/
theorem C9_empty_palette_witness :
    genPattern 1 1 [] (fun _ => 0) = none ∧
    ∃ g, genPattern 1 1 ["#00ff00"] (fun _ => 0) = some g :=
  ⟨(C9_empty_palette 1 1 [] (fun _ => 0) Nat.one_pos Nat.one_pos).1 rfl,
   (C9_empty_palette 1 1 ["#00ff00"] (fun _ => 0) Nat.one_pos Nat.one_pos).2 (by simp)⟩

/-- C10: every grid `Main.__gen_pattern` produces is rectangular — it has
exactly `height` rows and every row has length exactly `width`, the computed
column count (the invariant the renderer's row/cell traversal relies on). -/
theorem C10_rectangular (w h : ℕ) (colours : List String) (rng : ℕ → ℕ)
    (g : List (List String)) (hg : genPattern w h colours rng = some g) :
    g.length = h ∧ ∀ row ∈ g, row.length = w := by
  unfold genPattern at hg
  constructor
  · have hlen := mapOrFail_length _ _ _ hg
    simpa using hlen
  · intro row hrow
    rcases mapOrFail_mem _ _ _ hg row hrow with ⟨i, _, hir⟩
    have hlen := mapOrFail_length _ _ _ hir
    simpa using hlen

/-- C10 witness: a concrete 2×2 generation. -/
theorem C10_rectangular_witness :
    genPattern 2 2 ["#aa0000", "#bb0000"] (fun _ => 0) =
      some [["#aa0000", "#aa0000"], ["#aa0000", "#aa0000"]] ∧
    ([["#aa0000", "#aa0000"], ["#aa0000", "#aa0000"]] : List (List String)).length = 2 ∧
    ∀ row ∈ ([["#aa0000", "#aa0000"], ["#aa0000", "#aa0000"]] : List (List String)),
      row.length = 2 :=
  ⟨rfl, C10_rectangular 2 2 ["#aa0000", "#bb0000"] (fun _ => 0) _ rfl⟩

/-- One turtle command issued by `Main.__draw_pattern`. -/
inductive DrawOp : Type
  | winSetup (w h : ℤ)
  | hideTurtle
  | setSpeed (s : ℤ)
  | penup
  | goto (x y : ℚ)
  | pendown
  | color (c : String)
  | beginFill
  | forward (d : ℚ)
  | right (a : ℤ)
  | endFill
  | sleepFor (n : ℕ)
  | winBye
  deriving DecidableEq, Repr

/-- The turtle cursor state: position, heading in degrees (the renderer only
ever holds multiples of 90), pen and fill flags, current pen colour. -/
structure TurtleState : Type where
  x : ℚ
  y : ℚ
  heading : ℤ
  pen : Bool
  filling : Bool
  penColour : String
  deriving DecidableEq, Repr

/-- A fresh `Turtle()`: at the origin, heading east (0°), pen down. -/
def initState : TurtleState :=
  { x := 0, y := 0, heading := 0, pen := true, filling := false, penColour := "black" }

/-- Cosine of a turtle heading that is a multiple of 90 degrees. -/
def cosDeg (h : ℤ) : ℚ :=
  if h % 360 = 0 then 1 else if h % 360 = 180 then -1 else 0

/-- Sine of a turtle heading that is a multiple of 90 degrees. -/
def sinDeg (h : ℤ) : ℚ :=
  if h % 360 = 90 then 1 else if h % 360 = 270 then -1 else 0

/-- Small-step semantics of one turtle command on the cursor state
(`right` turns clockwise and turtle headings normalise into `[0, 360)`). -/
def stepOp (s : TurtleState) : DrawOp → TurtleState
  | .penup => { s with pen := false }
  | .pendown => { s with pen := true }
  | .goto x y => { s with x := x, y := y }
  | .color c => { s with penColour := c }
  | .beginFill => { s with filling := true }
  | .endFill => { s with filling := false }
  | .forward d => { s with x := s.x + d * cosDeg s.heading, y := s.y + d * sinDeg s.heading }
  | .right a => { s with heading := (s.heading - a) % 360 }
  | _ => s

/-- Run a list of turtle commands from a state. -/
def runOps (s : TurtleState) (ops : List DrawOp) : TurtleState :=
  ops.foldl stepOp s

/-- The square-tracing loop of `Main.__draw_pattern`:
`for _ in range(4): forward(side_length); right(90)`. -/
def squareTrace (side : ℤ) : List DrawOp :=
  (List.replicate 4 [DrawOp.forward (side : ℚ), DrawOp.right 90]).flatten

/-- The commands `Main.__draw_pattern` issues for one cell of colour `c`:
pen down, set colour, begin fill, trace the square, end fill, advance. -/
def cellOps (side : ℤ) (c : String) : List DrawOp :=
  [DrawOp.pendown, DrawOp.color c, DrawOp.beginFill] ++ squareTrace side ++
    [DrawOp.endFill, DrawOp.forward (side : ℚ)]

/-- The commands for one row: each cell in order, then the new-line step
`penup(); goto(-width / 2, ycor() - side_length)` (the `goto` ordinate reads
the cursor's y after the row's cells have been drawn). -/
def rowOps (width side : ℤ) (row : List String) (s : TurtleState) : List DrawOp :=
  row.flatMap (cellOps side) ++
    [DrawOp.penup,
     DrawOp.goto (-(width : ℚ) / 2) ((runOps s (row.flatMap (cellOps side))).y - (side : ℚ))]

/-- The commands for all rows, threading the cursor state. -/
def rowsOps (width side : ℤ) : List (List String) → TurtleState → List DrawOp
  | [], _ => []
  | r :: rs, s => rowOps width side r s ++ rowsOps width side rs (runOps s (rowOps width side r s))

/-- The initialisation of `Main.__draw_pattern`: window setup, hide the
cursor, set the speed, and move pen-up to the top-left corner. -/
def initOps (width height speed : ℤ) : List DrawOp :=
  [DrawOp.winSetup width height, DrawOp.hideTurtle, DrawOp.setSpeed speed,
   DrawOp.penup, DrawOp.goto (-(width : ℚ) / 2) ((height : ℚ) / 2)]

/-- The full command trace of `Main.__draw_pattern` on a grid `g`. -/
def drawOps (width height speed side : ℤ) (g : List (List String)) : List DrawOp :=
  initOps width height speed ++
    rowsOps width side g (runOps initState (initOps width height speed)) ++
    [DrawOp.sleepFor 10, DrawOp.winBye]

/-- A command that puts ink on the canvas or is part of a square-draw
sequence: pen down, colour change, fill delimiters, movement with the pen
down, turning. -/
def isDrawingOp : DrawOp → Bool
  | .pendown => true
  | .color _ => true
  | .beginFill => true
  | .forward _ => true
  | .right _ => true
  | .endFill => true
  | _ => false

def isPendownOp : DrawOp → Bool
  | .pendown => true
  | _ => false

def isPenupOp : DrawOp → Bool
  | .penup => true
  | _ => false

def isGotoOp : DrawOp → Bool
  | .goto _ _ => true
  | _ => false

lemma squareTrace_run (side : ℤ) (s : TurtleState)
    (h : s.heading = 0 ∨ s.heading = 90 ∨ s.heading = 180 ∨ s.heading = 270) :
    runOps s (squareTrace side) = s := by
  obtain ⟨sx, sy, sh, sp, sf, sc⟩ := s
  dsimp only at h
  rcases h with h | h | h | h <;> subst h <;>
    simp [runOps, squareTrace, stepOp, cosDeg, sinDeg]

lemma runOps_append (s : TurtleState) (l1 l2 : List DrawOp) :
    runOps s (l1 ++ l2) = runOps (runOps s l1) l2 := by
  simp [runOps, List.foldl_append]

lemma cellOps_run (side : ℤ) (c : String) (s : TurtleState) (h : s.heading = 0) :
    runOps s (cellOps side c) = ⟨s.x + (side : ℚ), s.y, 0, true, false, c⟩ := by
  obtain ⟨sx, sy, sh, sp, sf, sc⟩ := s
  dsimp only at h
  subst h
  simp [runOps, cellOps, squareTrace, stepOp, cosDeg, sinDeg]

/-- C7: for every rendered cell (the renderer's heading is always a multiple
of 90°), the emitted commands are exactly pen-down, colour, begin-fill, a
closed square path of 4 sides of length `side_length` each followed by a 90°
clockwise turn — after which the cursor is back in the state it started the
trace in — then end-fill and a forward advance by `side_length` towards the
next cell. -/
theorem C7_cell_square (side : ℤ) (c : String) (s : TurtleState)
    (h : s.heading = 0 ∨ s.heading = 90 ∨ s.heading = 180 ∨ s.heading = 270) :
    cellOps side c =
      [DrawOp.pendown, DrawOp.color c, DrawOp.beginFill] ++ squareTrace side ++
        [DrawOp.endFill, DrawOp.forward (side : ℚ)] ∧
    squareTrace side =
      [DrawOp.forward (side : ℚ), DrawOp.right 90, DrawOp.forward (side : ℚ), DrawOp.right 90,
       DrawOp.forward (side : ℚ), DrawOp.right 90, DrawOp.forward (side : ℚ), DrawOp.right 90] ∧
    (runOps s [DrawOp.pendown, DrawOp.color c, DrawOp.beginFill]).pen = true ∧
    (runOps s [DrawOp.pendown, DrawOp.color c, DrawOp.beginFill]).filling = true ∧
    runOps (runOps s [DrawOp.pendown, DrawOp.color c, DrawOp.beginFill]) (squareTrace side) =
      runOps s [DrawOp.pendown, DrawOp.color c, DrawOp.beginFill] ∧
    (runOps s (cellOps side c)).filling = false ∧
    (runOps s (cellOps side c)).x = s.x + (side : ℚ) * cosDeg s.heading ∧
    (runOps s (cellOps side c)).y = s.y + (side : ℚ) * sinDeg s.heading ∧
    (runOps s (cellOps side c)).heading = s.heading := by
  refine ⟨rfl, rfl, rfl, rfl, squareTrace_run side _ h, ?_, ?_, ?_, ?_⟩ <;>
    · obtain ⟨sx, sy, sh, sp, sf, sc⟩ := s
      dsimp only at h
      rcases h with h | h | h | h <;> subst h <;>
        simp [runOps, cellOps, squareTrace, stepOp, cosDeg, sinDeg]

/-- C7 witness: a concrete cell drawn from the initial turtle state. -/
theorem C7_cell_square_witness :
    (initState.heading = 0 ∨ initState.heading = 90 ∨ initState.heading = 180 ∨
      initState.heading = 270) ∧
    ((runOps initState [DrawOp.pendown, DrawOp.color "#ff0000", DrawOp.beginFill]).pen = true ∧
     runOps (runOps initState [DrawOp.pendown, DrawOp.color "#ff0000", DrawOp.beginFill])
       (squareTrace 50) =
       runOps initState [DrawOp.pendown, DrawOp.color "#ff0000", DrawOp.beginFill] ∧
     (runOps initState (cellOps 50 "#ff0000")).x =
       initState.x + (50 : ℚ) * cosDeg initState.heading ∧
     (runOps initState (cellOps 50 "#ff0000")).heading = initState.heading) :=
  ⟨Or.inl rfl,
   (C7_cell_square 50 "#ff0000" initState (Or.inl rfl)).2.2.1,
   (C7_cell_square 50 "#ff0000" initState (Or.inl rfl)).2.2.2.2.1,
   (C7_cell_square 50 "#ff0000" initState (Or.inl rfl)).2.2.2.2.2.2.1,
   (C7_cell_square 50 "#ff0000" initState (Or.inl rfl)).2.2.2.2.2.2.2.2⟩

lemma rowsOps_all_empty (width side : ℤ) :
    ∀ (g : List (List String)) (s : TurtleState), (∀ row ∈ g, row = []) →
      ∀ op ∈ rowsOps width side g s, op = DrawOp.penup ∨ ∃ x y, op = DrawOp.goto x y := by
  intro g
  induction g with
  | nil => intro s _ op hop; simp [rowsOps] at hop
  | cons r rs ih =>
    intro s hall op hop
    have hr : r = [] := hall r (List.mem_cons_self _ _)
    subst hr
    simp only [rowsOps, List.mem_append] at hop
    rcases hop with hop | hop
    · simp [rowOps] at hop
      rcases hop with rfl | rfl
      · exact Or.inl rfl
      · exact Or.inr ⟨_, _, rfl⟩
    · exact ih _ (fun row hrow => hall row (List.mem_cons_of_mem _ hrow)) op hop

/-- C3: rendering an empty grid (no rows, or rows with no cells) performs
zero square-draw operations — the trace contains no pen-down, colour,
fill, forward or turn command at all, only cursor management — and for a
grid with no rows the trace is literally the positioning commands followed
by the teardown (`sleep(10)`, window close): directly from Positioned to
Done with no drawing performed. -/
theorem C3_empty_grid (width height speed side : ℤ) (g : List (List String))
    (hempty : ∀ row ∈ g, row = []) :
    (drawOps width height speed side g).countP isDrawingOp = 0 ∧
    (∀ op ∈ rowsOps width side g (runOps initState (initOps width height speed)),
      isPenupOp op = true ∨ isGotoOp op = true) ∧
    (g = [] → drawOps width height speed side g =
      initOps width height speed ++ [DrawOp.sleepFor 10, DrawOp.winBye]) := by
  have hkey := rowsOps_all_empty width side g
    (runOps initState (initOps width height speed)) hempty
  refine ⟨?_, ?_, ?_⟩
  · apply List.countP_eq_zero.mpr
    intro op hop
    simp only [drawOps, List.mem_append] at hop
    rcases hop with (hop | hop) | hop
    · simp [initOps] at hop
      rcases hop with rfl | rfl | rfl | rfl | rfl <;> simp [isDrawingOp]
    · rcases hkey op hop with rfl | ⟨x, y, rfl⟩ <;> simp [isDrawingOp]
    · simp at hop
      rcases hop with rfl | rfl <;> simp [isDrawingOp]
  · intro op hop
    rcases hkey op hop with rfl | ⟨x, y, rfl⟩
    · exact Or.inl rfl
    · exact Or.inr rfl
  · rintro rfl
    simp [drawOps, rowsOps]

/-- C3 witness: the concrete 2-row 0-column grid. -/
theorem C3_empty_grid_witness :
    (∀ row ∈ ([[], []] : List (List String)), row = []) ∧
    (drawOps 200 100 5 50 [[], []]).countP isDrawingOp = 0 ∧
    (∀ op ∈ rowsOps 200 50 [[], []] (runOps initState (initOps 200 100 5)),
      isPenupOp op = true ∨ isGotoOp op = true) ∧
    (([[], []] : List (List String)) = [] → drawOps 200 100 5 50 [[], []] =
      initOps 200 100 5 ++ [DrawOp.sleepFor 10, DrawOp.winBye]) :=
  ⟨by simp, C3_empty_grid 200 100 5 50 [[], []] (by simp)⟩

lemma list_length_two {α : Type} (l : List α) (h : l.length = 2) :
    ∃ a b, l = [a, b] := by
  obtain ⟨a, l1, rfl⟩ := List.exists_of_length_succ l h
  simp only [List.length_cons] at h
  obtain ⟨b, l2, rfl⟩ := List.exists_of_length_succ l1 (show l1.length = 0 + 1 by omega)
  simp only [List.length_cons] at h
  have hnil : l2 = [] := List.eq_nil_of_length_eq_zero (by omega)
  subst hnil
  exact ⟨a, b, rfl⟩

lemma list_length_four {α : Type} (l : List α) (h : l.length = 4) :
    ∃ a b c d, l = [a, b, c, d] := by
  obtain ⟨a, l1, rfl⟩ := List.exists_of_length_succ l h
  simp only [List.length_cons] at h
  obtain ⟨b, l2, rfl⟩ := List.exists_of_length_succ l1 (show l1.length = 2 + 1 by omega)
  simp only [List.length_cons] at h
  obtain ⟨c, l3, rfl⟩ := List.exists_of_length_succ l2 (show l2.length = 1 + 1 by omega)
  simp only [List.length_cons] at h
  obtain ⟨d, l4, rfl⟩ := List.exists_of_length_succ l3 (show l3.length = 0 + 1 by omega)
  simp only [List.length_cons] at h
  have hnil : l4 = [] := List.eq_nil_of_length_eq_zero (by omega)
  subst hnil
  exact ⟨a, b, c, d, rfl⟩

lemma pyRound_intCast (n : ℤ) : pyRound ((n : ℚ)) = n := by
  simp [pyRound, Int.floor_intCast]

lemma patternDims_concrete : patternDims 200 100 50 = some (4, 2) := by
  have h1 : ((200 : ℤ) : ℚ) / ((50 : ℤ) : ℚ) = ((4 : ℤ) : ℚ) := by norm_num
  have h2 : ((100 : ℤ) : ℚ) / ((50 : ℤ) : ℚ) = ((2 : ℤ) : ℚ) := by norm_num
  simp only [patternDims, h1, h2, pyRound_intCast, if_neg (by norm_num : (50 : ℤ) ≠ 0)]

/-- C8: for `width = 200, height = 100, side_length = 50` and the palette
`["#ff0000", "#00ff00"]`, generation yields a 2-row × 4-column grid whose
8 cells are each one of the two palette colours, and the renderer's trace
contains exactly 8 pen-down (square-draw) sequences and exactly 2 row
advances — its `goto` commands are exactly `goto(-100, 0)` and
`goto(-100, -50)`: x reset to `-width/2` and y lowered by `side_length`
from the starting `height/2 = 50`. -/
theorem C8_concrete_scenario (speed : ℤ) (rng : ℕ → ℕ) :
    ∃ g, configPattern 200 100 50 ["#ff0000", "#00ff00"] rng = some g ∧
      g.length = 2 ∧
      (∀ row ∈ g, row.length = 4) ∧
      (∀ row ∈ g, ∀ c ∈ row, c = "#ff0000" ∨ c = "#00ff00") ∧
      (rowsOps 200 50 g (runOps initState (initOps 200 100 speed))).countP isPendownOp = 8 ∧
      (rowsOps 200 50 g (runOps initState (initOps 200 100 speed))).countP isPenupOp = 2 ∧
      (rowsOps 200 50 g (runOps initState (initOps 200 100 speed))).filter isGotoOp =
        [DrawOp.goto (-100) 0, DrawOp.goto (-100) (-50)] := by
  obtain ⟨g, hg⟩ : ∃ g, genPattern 4 2 ["#ff0000", "#00ff00"] rng = some g := by
    unfold genPattern
    apply mapOrFail_isSome
    intro i _
    apply mapOrFail_isSome
    intro j _
    rcases choice_eq_some_of_ne_nil ["#ff0000", "#00ff00"] (by simp) (rng (i * 4 + j)) with
      ⟨c, hcs, _⟩
    exact ⟨c, hcs⟩
  have hCP : configPattern 200 100 50 ["#ff0000", "#00ff00"] rng = some g := by
    simp only [configPattern, patternDims_concrete]
    exact hg
  have hg' := hg
  unfold genPattern at hg'
  have hglen : g.length = 2 := by simpa using mapOrFail_length _ _ _ hg'
  have hrowlen : ∀ row ∈ g, row.length = 4 := by
    intro row hrow
    rcases mapOrFail_mem _ _ _ hg' row hrow with ⟨i, _, hir⟩
    simpa using mapOrFail_length _ _ _ hir
  have hmem : ∀ row ∈ g, ∀ c ∈ row, c = "#ff0000" ∨ c = "#00ff00" := by
    intro row hrow c hcell
    rcases mapOrFail_mem _ _ _ hg' row hrow with ⟨i, _, hir⟩
    rcases mapOrFail_mem _ _ _ hir c hcell with ⟨j, _, hjc⟩
    simpa using choice_mem _ _ _ hjc
  obtain ⟨r1, r2, rfl⟩ := list_length_two g hglen
  obtain ⟨a1, a2, a3, a4, rfl⟩ := list_length_four r1 (hrowlen _ (by simp))
  obtain ⟨b1, b2, b3, b4, rfl⟩ := list_length_four r2 (hrowlen _ (by simp))
  refine ⟨_, hCP, hglen, hrowlen, hmem, ?_, ?_, ?_⟩
  · simp [rowsOps, rowOps, cellOps, squareTrace, runOps, initOps, initState, stepOp,
      cosDeg, sinDeg, isPendownOp, isPenupOp, isGotoOp, List.countP_cons]
  · simp [rowsOps, rowOps, cellOps, squareTrace, runOps, initOps, initState, stepOp,
      cosDeg, sinDeg, isPendownOp, isPenupOp, isGotoOp, List.countP_cons]
  · simp [rowsOps, rowOps, cellOps, squareTrace, runOps, initOps, initState, stepOp,
      cosDeg, sinDeg, isPendownOp, isPenupOp, isGotoOp, List.countP_cons]
    norm_num

/-- The contents a config file contributes under the five required keys
(`none` = key absent); JSON ties each key to its declared type. -/
structure ConfigMap : Type where
  speed : Option ℤ := none
  width : Option ℤ := none
  height : Option ℤ := none
  side_length : Option ℤ := none
  colours : Option (List String) := none
  deriving DecidableEq, Repr

/-- A configuration source as `Main.__config` sees it: whether the path is
an existing file, whether its suffix is `.json`, and the parse result of
its contents (`none` models malformed JSON, on which `json.loads` raises
`JSONDecodeError`). -/
structure ConfigFile : Type where
  isFile : Bool
  suffixJson : Bool
  parsed : Option ConfigMap
  deriving DecidableEq, Repr

/-- `_load_config(file)`: `loads(open(file).read())` — the parsed mapping,
or a raised `JSONDecodeError` for malformed contents. -/
def load_config (f : ConfigFile) : Except String ConfigMap :=
  match f.parsed with
  | none => .error "JSONDecodeError"
  | some m => .ok m

/-- The key-presence loop of `_check_valid_file`: every one of
`_NECESSARY_KEYS = (speed, height, width, side_length, colours)` must be in
the loaded mapping. -/
def hasAllKeys (m : ConfigMap) : Bool :=
  m.speed.isSome && m.height.isSome && m.width.isSome &&
    m.side_length.isSome && m.colours.isSome

/-- `_check_valid_file(file)`: the path must be an existing `.json` file and
the loaded mapping must contain every required key. Loading happens inside
the check, so a malformed file raises out of it. Note the function checks
nothing else: no value ranges, no palette size, no hex format. -/
def check_valid_file (f : ConfigFile) : Except String Bool :=
  if f.isFile && f.suffixJson then do
    let m ← load_config f
    pure (hasAllKeys m)
  else pure false

/-- The process-wide `_DEFAULT_CONFIG`, assumed complete (the program reads
all five keys from it when falling back). -/
structure DefConfig : Type where
  speed : ℤ
  width : ℤ
  height : ℤ
  side_length : ℤ
  colours : List String
  deriving DecidableEq, Repr

/-- `Main.__config(file)`: choose the file's contents when
`_check_valid_file` passes and the default otherwise, read each field with
a per-key default fallback, then build the pattern; `ZeroDivisionError`
and `IndexError` from the generation step propagate, as does any
`JSONDecodeError` raised inside `_check_valid_file`. -/
def Main_config (f : ConfigFile) (d : DefConfig) (rng : ℕ → ℕ) :
    Except String (List (List String)) := do
  let valid ← check_valid_file f
  let contents ← if valid then load_config f else pure {}
  let width := if valid then contents.width.getD d.width else d.width
  let height := if valid then contents.height.getD d.height else d.height
  let side := if valid then contents.side_length.getD d.side_length else d.side_length
  let colours := if valid then contents.colours.getD d.colours else d.colours
  match patternDims width height side with
  | none => .error "ZeroDivisionError"
  | some p =>
    match genPattern p.1.toNat p.2.toNat colours rng with
    | none => .error "IndexError"
    | some g => .ok g

/-- A stand-in for the process-wide default configuration. -/
def defaultConfig : DefConfig :=
  ⟨0, 500, 500, 50, ["#ffffff", "#000000"]⟩

/-- An existing, well-formed `.json` config file with every required key and
`side_length = 0`. -/
def cfgZeroSide : ConfigFile :=
  ⟨true, true, some ⟨some 5, some 200, some 100, some 0, some ["#ff0000", "#00ff00"]⟩⟩

/-- An existing, well-formed `.json` config file with every required key and
a single-entry palette `["#abc"]`. -/
def cfgOneColour : ConfigFile :=
  ⟨true, true, some ⟨some 5, some 200, some 100, some 50, some ["#abc"]⟩⟩

/-- An existing `.json` file whose contents do not parse as JSON. -/
def cfgMalformed : ConfigFile :=
  ⟨true, true, none⟩

/-- C4 (code bug): a config with all required keys and `side_length = 0`
passes `_check_valid_file` — the function checks only key presence, no
ranges — and `Main.__config` then evaluates `round(width / 0)`, raising
`ZeroDivisionError`; no `InvalidConfigError` is ever raised before the
division, contrary to the claim. -/
theorem C4_side_length_zero_crash :
    check_valid_file cfgZeroSide = .ok true ∧
    Main_config cfgZeroSide defaultConfig (fun _ => 0) = .error "ZeroDivisionError" :=
  ⟨rfl, rfl⟩

/-- C5 counterexample: the config with `colours = ["#abc"]` (one entry,
below the claimed minimum of 2) passes `_check_valid_file`, and the
pattern is generated from it without any error — validation does not fail. -/
theorem C5_one_colour_accepted :
    check_valid_file cfgOneColour = .ok true ∧
    Main_config cfgOneColour defaultConfig (fun _ => 0) =
      .ok [["#abc", "#abc", "#abc", "#abc"], ["#abc", "#abc", "#abc", "#abc"]] := by
  constructor
  · rfl
  · have h : Main_config cfgOneColour defaultConfig (fun _ => 0) =
        match patternDims 200 100 50 with
        | none => .error "ZeroDivisionError"
        | some p =>
          match genPattern p.1.toNat p.2.toNat ["#abc"] (fun _ => 0) with
          | none => .error "IndexError"
          | some g => .ok g := rfl
    rw [h, patternDims_concrete]
    rfl

/-- C5 amended: `_check_valid_file` checks only the presence of the five
required keys; it never inspects the `colours` value, so any existing
`.json` config containing all required keys passes validation no matter
how few entries `colours` has or whether they are hex colour tokens. -/
theorem C5_validation_ignores_colours (f : ConfigFile) (m : ConfigMap)
    (hf : f.isFile = true) (hsuf : f.suffixJson = true) (hp : f.parsed = some m)
    (hk : hasAllKeys m = true) :
    check_valid_file f = .ok true := by
  simp [check_valid_file, hf, hsuf, load_config, hp, hk]

/-- C5 amended witness: the single-colour config instance. -/
theorem C5_validation_ignores_colours_witness :
    cfgOneColour.isFile = true ∧
    hasAllKeys ⟨some 5, some 200, some 100, some 50, some ["#abc"]⟩ = true ∧
    check_valid_file cfgOneColour = .ok true :=
  ⟨rfl, rfl,
   C5_validation_ignores_colours cfgOneColour
     ⟨some 5, some 200, some 100, some 50, some ["#abc"]⟩ rfl rfl rfl rfl⟩

/-- C6 (code bug): a malformed configuration file does not fall back to the
default configuration — `_load_config` is called inside `_check_valid_file`,
so the `JSONDecodeError` propagates out of `Main.__config` and nothing is
drawn, contrary to the claimed fallback behaviour. -/
theorem C6_malformed_file_crash :
    check_valid_file cfgMalformed = .error "JSONDecodeError" ∧
    Main_config cfgMalformed defaultConfig (fun _ => 0) = .error "JSONDecodeError" :=
  ⟨rfl, rfl⟩
